import Mathlib

/-!
Shallow embedding of the aviation scheduling service (src/models.py and
src/main.py): the entity tables, the HTTP handler logic, and the
statistics endpoint, with theorems checking the specification's claims.

Modelling conventions:
* The database state is a record of row lists, one per table declared in
  models.py, plus the flight_pilot_association link table (which has no
  primary key or uniqueness constraint in models.py).
* SQLAlchemy queries are translated literally:
  query(T).filter(T.id == i).first() is List.find?,
  query(T).filter(T.id == i).delete() is List.filter with the negated
  predicate, and relationship access is a filter (one-to-many) or a join
  through the association table (many-to-many).
* SQLite assigns a fresh integer primary key max(id) + 1 on insert; the
  engine (configured in database.py, outside the handler modules) does
  not enforce the declared foreign keys at runtime, which matches the
  handlers: they insert and delete unconditionally with no foreign-key
  guard, and the design notes record that no such guard exists.
* Each mutating handler returns its HTTP response (Except for the
  404/500 paths) paired with the post-state; an exception raised before
  db.commit() leaves the state unchanged, since each request's session
  is discarded without committing.
* Calendar dates and times-of-day are opaque numeric codes (Nat); no
  handler computes with them.
-/

/-- A row of the Aircrafts table (models.py, class Aircraft). -/
structure Aircraft where
  id : Nat
  type : String
deriving Repr, DecidableEq

/-- A row of the Flights table (models.py, class Flight). -/
structure Flight where
  id : Nat
  aircraft_id : Nat
  origin : String
  arrival_terminal : String
  origin_terminal : String
  arrival_gate : String
  departure_gate : String
  route : String
  destination : String
  arrival_date : Nat
  arrival_time : Nat
  departure_time : Nat
  departure_date : Nat
deriving Repr, DecidableEq

/-- A row of the Pilots table (models.py, class Pilot). -/
structure Pilot where
  id : Nat
  first_name : String
  last_name : String
  date_of_birth : Nat
deriving Repr, DecidableEq

/-- The persistent store: the three entity tables and the
flight_pilot_association table of (flight_id, pilot_id) rows. -/
structure DB where
  aircrafts : List Aircraft
  flights : List Flight
  pilots : List Pilot
  flight_pilot_association : List (Nat × Nat)
deriving Repr, DecidableEq

/-- main.py AircraftRequest. -/
structure AircraftRequest where
  type : String
deriving Repr, DecidableEq

/-- main.py FlightRequest. -/
structure FlightRequest where
  origin : String
  arrival_terminal : String
  origin_terminal : String
  arrival_gate : String
  departure_gate : String
  route : String
  destination : String
  arrival_date : Nat
  arrival_time : Nat
  departure_time : Nat
  departure_date : Nat
  aircraft_id : Nat
deriving Repr, DecidableEq

/-- main.py PilotRequest: pydantic declares exactly these three fields. -/
structure PilotRequest where
  first_name : String
  last_name : String
  date_of_birth : Nat
deriving Repr, DecidableEq

/-- main.py FlightPilotLinkRequest. -/
structure FlightPilotLinkRequest where
  pilot_id : Nat
  flight_id : Nat
deriving Repr, DecidableEq

/-- Errors a handler can surface: HTTPException 404 with its detail
string, or an uncaught Python AttributeError (HTTP 500). -/
inductive ApiError where
  | notFound : String → ApiError
  | attributeError : String → ApiError
deriving Repr, DecidableEq

/-- SQLite default rowid assignment on insert: one more than the largest
existing id, so 1 on an empty table. -/
def nextId (ids : List Nat) : Nat := ids.foldr max 0 + 1

/-- GET /aircrafts/{aircraft_id} (main.py read_aircraft). -/
def read_aircraft (db : DB) (aircraft_id : Nat) : Except ApiError Aircraft :=
  match db.aircrafts.find? (fun a => a.id == aircraft_id) with
  | some a => Except.ok a
  | none => Except.error (ApiError.notFound "Aircraft not found.")

/-- GET /flights/{flight_id} (main.py read_flight). -/
def read_flight (db : DB) (flight_id : Nat) : Except ApiError Flight :=
  match db.flights.find? (fun f => f.id == flight_id) with
  | some f => Except.ok f
  | none => Except.error (ApiError.notFound "Flight not found.")

/-- GET /pilots/{pilot_id} (main.py read_pilot). -/
def read_pilot (db : DB) (pilot_id : Nat) : Except ApiError Pilot :=
  match db.pilots.find? (fun p => p.id == pilot_id) with
  | some p => Except.ok p
  | none => Except.error (ApiError.notFound "Pilot not found.")

/-- The relationship Aircraft.flights (models.py): the Flights whose
aircraft_id equals this aircraft's id, in row order. -/
def Aircraft.relatedFlights (a : Aircraft) (db : DB) : List Flight :=
  db.flights.filter (fun f => f.aircraft_id == a.id)

/-- GET /aircrafts/{aircraft_id}/flights (main.py read_aircraft_flights). -/
def read_aircraft_flights (db : DB) (aircraft_id : Nat) :
    Except ApiError (List Flight) :=
  match db.aircrafts.find? (fun a => a.id == aircraft_id) with
  | some a => Except.ok (a.relatedFlights db)
  | none => Except.error (ApiError.notFound "Aircraft not found.")

/-- The relationship Flight.pilots (models.py): a join through the
flight_pilot_association secondary table — one entry per association row
with this flight's id, so duplicate rows yield duplicate entries. -/
def Flight.relatedPilots (f : Flight) (db : DB) : List Pilot :=
  (db.flight_pilot_association.filter (fun r => r.1 == f.id)).filterMap
    (fun r => db.pilots.find? (fun p => p.id == r.2))

/-- GET /flights/{flight_id}/pilots (main.py read_flight_pilots). -/
def read_flight_pilots (db : DB) (flight_id : Nat) :
    Except ApiError (List Pilot) :=
  match db.flights.find? (fun f => f.id == flight_id) with
  | some f => Except.ok (f.relatedPilots db)
  | none => Except.error (ApiError.notFound "Flight not found.")

/-- POST /aircraft (main.py create_aircraft): always succeeds, returns
the created row. -/
def create_aircraft (db : DB) (req : AircraftRequest) : Aircraft × DB :=
  let a : Aircraft :=
    { id := nextId (db.aircrafts.map (fun x => x.id)), type := req.type }
  (a, { db with aircrafts := db.aircrafts ++ [a] })

/-- POST /flights (main.py create_flight): builds the Flight from the
request and commits it. The handler performs no aircraft-existence
check and no foreign key fires at runtime, so the insert always
succeeds, even when aircraft_id references no Aircraft row. -/
def create_flight (db : DB) (req : FlightRequest) : Flight × DB :=
  let f : Flight :=
    { id := nextId (db.flights.map (fun x => x.id))
      aircraft_id := req.aircraft_id
      origin := req.origin
      arrival_terminal := req.arrival_terminal
      origin_terminal := req.origin_terminal
      arrival_gate := req.arrival_gate
      departure_gate := req.departure_gate
      route := req.route
      destination := req.destination
      arrival_date := req.arrival_date
      arrival_time := req.arrival_time
      departure_time := req.departure_time
      departure_date := req.departure_date }
  (f, { db with flights := db.flights ++ [f] })

/-- POST /pilots (main.py create_pilot): commits the new Pilot and then
falls off the end of the function, so the response body is None. -/
def create_pilot (db : DB) (req : PilotRequest) : Option Pilot × DB :=
  let p : Pilot :=
    { id := nextId (db.pilots.map (fun x => x.id))
      first_name := req.first_name
      last_name := req.last_name
      date_of_birth := req.date_of_birth }
  (none, { db with pilots := db.pilots ++ [p] })

/-- Python attribute lookup on a PilotRequest: the pydantic model
declares exactly first_name, last_name and date_of_birth, so access to
any other attribute name raises AttributeError. -/
def PilotRequest.hasattr (_r : PilotRequest) (name : String) : Bool :=
  name == "first_name" || name == "last_name" || name == "date_of_birth"

/-- PUT /pilots/{pilot_id} (main.py update_pilot): 404 when the id is
unknown; otherwise the handler assigns the three request fields on the
session object and then evaluates pilot_request.flight_id — an
attribute PilotRequest does not declare — raising AttributeError before
db.commit(), so the staged assignment is discarded with the session. -/
def update_pilot (db : DB) (pilot_id : Nat) (req : PilotRequest) :
    Except ApiError Unit × DB :=
  match db.pilots.find? (fun p => p.id == pilot_id) with
  | none => (Except.error (ApiError.notFound "Pilot not found."), db)
  | some _ =>
    if req.hasattr "flight_id" then
      (Except.ok (),
       { db with pilots := db.pilots.map (fun p =>
           if p.id == pilot_id then
             { p with
               first_name := req.first_name
               last_name := req.last_name
               date_of_birth := req.date_of_birth }
           else p) })
    else
      (Except.error
        (ApiError.attributeError "PilotRequest object has no attribute flight_id"),
       db)

/-- DELETE /aircraft/{aircraft_id} (main.py delete_aircraft): 404 when
no row matches, otherwise a bulk query delete of the rows with that id;
nothing cascades to Flights or to the association table. -/
def delete_aircraft (db : DB) (aircraft_id : Nat) : Except ApiError Unit × DB :=
  match db.aircrafts.find? (fun a => a.id == aircraft_id) with
  | none => (Except.error (ApiError.notFound "Aircraft not found."), db)
  | some _ =>
    (Except.ok (),
     { db with aircrafts := db.aircrafts.filter (fun a => !(a.id == aircraft_id)) })

/-- DELETE /flights/{flight_id} (main.py delete_flight): 404 when no row
matches, otherwise a bulk query delete; association rows naming the
flight are left in place. -/
def delete_flight (db : DB) (flight_id : Nat) : Except ApiError Unit × DB :=
  match db.flights.find? (fun f => f.id == flight_id) with
  | none => (Except.error (ApiError.notFound "Flight not found."), db)
  | some _ =>
    (Except.ok (),
     { db with flights := db.flights.filter (fun f => !(f.id == flight_id)) })

/-- DELETE /pilots/{pilot_id} (main.py delete_pilot): 404 when no row
matches, otherwise a bulk query delete; association rows naming the
pilot are left in place. -/
def delete_pilot (db : DB) (pilot_id : Nat) : Except ApiError Unit × DB :=
  match db.pilots.find? (fun p => p.id == pilot_id) with
  | none => (Except.error (ApiError.notFound "Pilot not found."), db)
  | some _ =>
    (Except.ok (),
     { db with pilots := db.pilots.filter (fun p => !(p.id == pilot_id)) })

/-- POST /link-pilot-flight/ (main.py link_pilot_to_flight): 404 if the
flight or the pilot is missing, checked in that order before any write;
otherwise pilot.flights.append(flight) inserts one
(flight_id, pilot_id) row into the association table, unconditionally,
with no duplicate check. -/
def link_pilot_to_flight (db : DB) (req : FlightPilotLinkRequest) :
    Except ApiError String × DB :=
  match db.flights.find? (fun f => f.id == req.flight_id) with
  | none => (Except.error (ApiError.notFound "Flight not found."), db)
  | some flight =>
    match db.pilots.find? (fun p => p.id == req.pilot_id) with
    | none => (Except.error (ApiError.notFound "Pilot not found."), db)
    | some pilot =>
      (Except.ok "Pilot linked to flight successfully",
       { db with flight_pilot_association :=
           db.flight_pilot_association ++ [(flight.id, pilot.id)] })

/-- GROUP BY destination with COUNT, ORDER BY count DESC, first row
(main.py flight_statistics, destination query). Groups are enumerated
in first-occurrence order and only a strictly larger count displaces
the current best, so ties keep the earlier group (the source leaves tie
order to the underlying query). Returns none when there are no rows to
group, as first() does. -/
def mostCommonDestination (flights : List Flight) : Option (String × Nat) :=
  ((flights.map (fun f => f.destination)).eraseDups.map
    (fun d => (d, flights.countP (fun f => f.destination == d)))).foldl
    (fun best g =>
      match best with
      | none => some g
      | some b => if g.2 > b.2 then some g else some b) none

/-- JOIN of Flights to Aircrafts on Aircraft.id = Flight.aircraft_id,
GROUP BY Aircraft.type with COUNT, ORDER BY count DESC, first row
(main.py flight_statistics, aircraft query); same enumeration and tie
handling as the destination query. -/
def mostCommonAircraft (db : DB) : Option (String × Nat) :=
  let joinedTypes := db.flights.filterMap
    (fun f => (db.aircrafts.find? (fun a => a.id == f.aircraft_id)).map
      (fun a => a.type))
  (joinedTypes.eraseDups.map
    (fun t => (t, joinedTypes.countP (fun s => s == t)))).foldl
    (fun best g =>
      match best with
      | none => some g
      | some b => if g.2 > b.2 then some g else some b) none

/-- The statistics response body built on the success path. -/
structure FlightStatisticsResponse where
  total_flights : Nat
  most_common_destination : String × Nat
  most_common_aircraft : String × Nat
deriving Repr, DecidableEq

/-- GET /flights/statistics (main.py flight_statistics): counts the
flights, runs the two grouped queries, then builds the response by
reading .destination and .type off each first() result with no None
check — so when a query returns no row the dereference raises
AttributeError (HTTP 500) instead of producing null aggregates. -/
def flight_statistics (db : DB) : Except ApiError FlightStatisticsResponse :=
  let total_flights := db.flights.length
  match mostCommonDestination db.flights with
  | none =>
    Except.error (ApiError.attributeError "NoneType object has no attribute destination")
  | some mcd =>
    match mostCommonAircraft db with
    | none =>
      Except.error (ApiError.attributeError "NoneType object has no attribute type")
    | some mca =>
      Except.ok
        { total_flights := total_flights
          most_common_destination := mcd
          most_common_aircraft := mca }

/-! Concrete stores used by witnesses and counterexamples. -/

/-- The empty store. -/
def emptyDB : DB :=
  { aircrafts := [], flights := [], pilots := [], flight_pilot_association := [] }

/-- Sample aircraft row. -/
def aircraftW : Aircraft := { id := 1, type := "Boeing 737" }

/-- Sample flight row, owned by aircraft 1. -/
def flightW : Flight :=
  { id := 1
    aircraft_id := 1
    origin := "LHR"
    arrival_terminal := "T1"
    origin_terminal := "T2"
    arrival_gate := "G1"
    departure_gate := "G2"
    route := "direct"
    destination := "LAX"
    arrival_date := 20240102
    arrival_time := 1200
    departure_time := 900
    departure_date := 20240101 }

/-- Sample pilot row. -/
def pilotW : Pilot :=
  { id := 1, first_name := "Jane", last_name := "Doe", date_of_birth := 19800101 }

/-- A store holding one aircraft, one flight and one pilot, no links. -/
def dbW : DB :=
  { aircrafts := [aircraftW]
    flights := [flightW]
    pilots := [pilotW]
    flight_pilot_association := [] }

/-- Link request naming the sample pilot and flight. -/
def linkReqW : FlightPilotLinkRequest := { pilot_id := 1, flight_id := 1 }

/-- Link request naming a pilot id with no row. -/
def linkReqMissingPilot : FlightPilotLinkRequest := { pilot_id := 2, flight_id := 1 }

/-- Flight request whose aircraft_id is 1. -/
def flightRequestW : FlightRequest :=
  { origin := "LHR"
    arrival_terminal := "T1"
    origin_terminal := "T2"
    arrival_gate := "G1"
    departure_gate := "G2"
    route := "direct"
    destination := "LAX"
    arrival_date := 20240102
    arrival_time := 1200
    departure_time := 900
    departure_date := 20240101
    aircraft_id := 1 }

/-- Sample pilot update/create request. -/
def pilotRequestW : PilotRequest :=
  { first_name := "John", last_name := "Smith", date_of_birth := 19750615 }

/-! Helper lemmas shared by the claim theorems. -/

/-- A bulk delete by predicate leaves nothing for a subsequent find? by
the same predicate. -/
theorem find?_filter_negpred {α : Type} (l : List α) (p : α → Bool) :
    (l.filter (fun a => !(p a))).find? p = none := by
  induction l with
  | nil => rfl
  | cons x xs ih =>
    cases hx : p x with
    | true => simp [List.filter_cons, hx, ih]
    | false => simp [List.filter_cons, List.find?_cons, hx, ih]

/-- A find? with an unsatisfiable predicate returns nothing. -/
theorem find?_const_false {α : Type} (l : List α) :
    l.find? (fun _ => false) = none := by
  induction l with
  | nil => rfl
  | cons x xs ih => simp [List.find?_cons, ih]

/-- A successful aircraft delete produced exactly the bulk-filtered
store. -/
theorem delete_aircraft_ok_state (db db2 : DB) (i : Nat)
    (h : delete_aircraft db i = (Except.ok (), db2)) :
    db2 = { db with aircrafts := db.aircrafts.filter (fun a => !(a.id == i)) } := by
  unfold delete_aircraft at h
  cases hfind : db.aircrafts.find? (fun a => a.id == i) with
  | none => rw [hfind] at h; simp at h
  | some a =>
    rw [hfind] at h
    exact (congrArg Prod.snd h).symm

/-- A successful flight delete produced exactly the bulk-filtered
store. -/
theorem delete_flight_ok_state (db db2 : DB) (i : Nat)
    (h : delete_flight db i = (Except.ok (), db2)) :
    db2 = { db with flights := db.flights.filter (fun f => !(f.id == i)) } := by
  unfold delete_flight at h
  cases hfind : db.flights.find? (fun f => f.id == i) with
  | none => rw [hfind] at h; simp at h
  | some f =>
    rw [hfind] at h
    exact (congrArg Prod.snd h).symm

/-- A successful pilot delete produced exactly the bulk-filtered
store. -/
theorem delete_pilot_ok_state (db db2 : DB) (i : Nat)
    (h : delete_pilot db i = (Except.ok (), db2)) :
    db2 = { db with pilots := db.pilots.filter (fun p => !(p.id == i)) } := by
  unfold delete_pilot at h
  cases hfind : db.pilots.find? (fun p => p.id == i) with
  | none => rw [hfind] at h; simp at h
  | some p =>
    rw [hfind] at h
    exact (congrArg Prod.snd h).symm

/-! Claim theorems. -/

/-- Claim C1 counterexample: on the empty store, where aircraft_id 1
references no Aircraft row, POST /flights succeeds and persists the
row, so the create neither fails with a foreign-key violation nor
leaves the Flight table unchanged. -/
theorem create_flight_dangling_fk_counterexample :
    emptyDB.aircrafts.find? (fun a => a.id == 1) = none ∧
    (create_flight emptyDB flightRequestW).2.flights ≠ [] :=
  ⟨rfl, by decide⟩

/-- Claim C1 amended: a Flight create whose aircraft_id references no
existing Aircraft still succeeds — the handler performs no existence
check and no foreign key fires — and exactly the supplied row, carrying
a fresh id and the dangling aircraft_id, is appended to the Flight
table; no ForeignKeyViolation is raised. -/
theorem create_flight_persists_dangling_fk (db : DB) (req : FlightRequest)
    (_h : db.aircrafts.find? (fun a => a.id == req.aircraft_id) = none) :
    (create_flight db req).2.flights
        = db.flights ++ [(create_flight db req).1] ∧
    (create_flight db req).1.aircraft_id = req.aircraft_id :=
  ⟨rfl, rfl⟩

/-- Claim C1 amended, witnessed on the empty store with aircraft_id 1. -/
theorem create_flight_persists_dangling_fk_witness :
    (create_flight emptyDB flightRequestW).2.flights
        = emptyDB.flights ++ [(create_flight emptyDB flightRequestW).1] ∧
    (create_flight emptyDB flightRequestW).1.aircraft_id = flightRequestW.aircraft_id :=
  create_flight_persists_dangling_fk emptyDB flightRequestW (by rfl)

/-- Claim C2 counterexample: linking pilot 1 to flight 1 twice on a
store holding that one flight and one pilot leaves two association
rows, and GET /flights/1/pilots then returns the pilot twice. -/
theorem link_twice_duplicate_counterexample :
    (link_pilot_to_flight (link_pilot_to_flight dbW linkReqW).2 linkReqW).2.flight_pilot_association
        = [(1, 1), (1, 1)] ∧
    read_flight_pilots (link_pilot_to_flight (link_pilot_to_flight dbW linkReqW).2 linkReqW).2 1
        = Except.ok [pilotW, pilotW] :=
  ⟨rfl, rfl⟩

/-- Claim C2 amended: the link handler appends unconditionally and the
association table carries no uniqueness constraint, so linking an
existing (pilot, flight) pair twice inserts the pair twice: its row
count grows by exactly two. -/
theorem link_twice_appends_pair_twice (db : DB) (req : FlightPilotLinkRequest)
    (f : Flight) (p : Pilot)
    (hf : db.flights.find? (fun x => x.id == req.flight_id) = some f)
    (hp : db.pilots.find? (fun x => x.id == req.pilot_id) = some p) :
    ((link_pilot_to_flight (link_pilot_to_flight db req).2 req).2.flight_pilot_association).count
        (f.id, p.id)
      = db.flight_pilot_association.count (f.id, p.id) + 2 := by
  simp [link_pilot_to_flight, hf, hp, List.count_append]

/-- Claim C2 amended, witnessed by the double link of pilot 1 to
flight 1. -/
theorem link_twice_appends_pair_twice_witness :
    ((link_pilot_to_flight (link_pilot_to_flight dbW linkReqW).2 linkReqW).2.flight_pilot_association).count
        (flightW.id, pilotW.id)
      = dbW.flight_pilot_association.count (flightW.id, pilotW.id) + 2 :=
  link_twice_appends_pair_twice dbW linkReqW flightW pilotW (by rfl) (by rfl)

/-- Claim C3, code bug: with zero Flight rows the destination query
returns no row, and the handler dereferences .destination on that None,
so GET /flights/statistics raises AttributeError (HTTP 500) instead of
returning total_flights = 0 with null aggregates. -/
theorem flight_statistics_empty_store_crashes :
    flight_statistics emptyDB
      = Except.error (ApiError.attributeError "NoneType object has no attribute destination") :=
  rfl

/-- Claim C4, code bug: updating the existing pilot 1 raises
AttributeError, because the handler reads pilot_request.flight_id and
PilotRequest declares no such field; db.commit() is never reached, the
store is unchanged, and so the update never succeeds on any existing
id (the NotFound branch for a missing id is the only earlier exit). -/
theorem update_pilot_existing_id_crashes :
    update_pilot dbW 1 pilotRequestW
      = (Except.error (ApiError.attributeError "PilotRequest object has no attribute flight_id"),
         dbW) :=
  rfl

/-- Claim C5: whenever a delete succeeds for an Aircraft, Flight, or
Pilot id, the subsequent get-by-id on the resulting store returns
NotFound — the bulk delete removed every row matching the id, so the
lookup finds none. -/
theorem delete_then_get_by_id_not_found
    (dba dbf dbp : DB) (i : Nat) (dba2 dbf2 dbp2 : DB)
    (ha : delete_aircraft dba i = (Except.ok (), dba2))
    (hf : delete_flight dbf i = (Except.ok (), dbf2))
    (hp : delete_pilot dbp i = (Except.ok (), dbp2)) :
    read_aircraft dba2 i = Except.error (ApiError.notFound "Aircraft not found.") ∧
    read_flight dbf2 i = Except.error (ApiError.notFound "Flight not found.") ∧
    read_pilot dbp2 i = Except.error (ApiError.notFound "Pilot not found.") := by
  have ha2 := delete_aircraft_ok_state dba dba2 i ha
  have hf2 := delete_flight_ok_state dbf dbf2 i hf
  have hp2 := delete_pilot_ok_state dbp dbp2 i hp
  subst ha2; subst hf2; subst hp2
  refine ⟨?_, ?_, ?_⟩
  · simp [read_aircraft, find?_filter_negpred, find?_const_false]
  · simp [read_flight, find?_filter_negpred, find?_const_false]
  · simp [read_pilot, find?_filter_negpred, find?_const_false]

/-- Claim C5, witnessed on the store with aircraft 1, flight 1 and
pilot 1, deleting id 1 from each table. -/
theorem delete_then_get_by_id_not_found_witness :
    read_aircraft (delete_aircraft dbW 1).2 1
        = Except.error (ApiError.notFound "Aircraft not found.") ∧
    read_flight (delete_flight dbW 1).2 1
        = Except.error (ApiError.notFound "Flight not found.") ∧
    read_pilot (delete_pilot dbW 1).2 1
        = Except.error (ApiError.notFound "Pilot not found.") :=
  delete_then_get_by_id_not_found dbW dbW dbW 1
    (delete_aircraft dbW 1).2 (delete_flight dbW 1).2 (delete_pilot dbW 1).2
    (by rfl) (by rfl) (by rfl)

/-- Claim C6: when aircraft_id resolves to an Aircraft row, GET
/aircrafts/{aircraft_id}/flights returns exactly the Flights whose
aircraft_id matches — stated as a membership characterisation, so the
guarantee is independent of insertion order — and it returns NotFound
exactly when no Aircraft row has that id. -/
theorem read_aircraft_flights_exact (db : DB) (aircraft_id : Nat) :
    (∀ fs, read_aircraft_flights db aircraft_id = Except.ok fs →
      ∀ f, f ∈ fs ↔ f ∈ db.flights ∧ f.aircraft_id = aircraft_id) ∧
    (read_aircraft_flights db aircraft_id
        = Except.error (ApiError.notFound "Aircraft not found.")
      ↔ ∀ a ∈ db.aircrafts, a.id ≠ aircraft_id) := by
  cases hfind : db.aircrafts.find? (fun a => a.id == aircraft_id) with
  | none =>
    have hnone := List.find?_eq_none.mp hfind
    constructor
    · intro fs hok
      unfold read_aircraft_flights at hok
      rw [hfind] at hok
      exact absurd hok (by simp)
    · constructor
      · intro _ a ha
        simpa using hnone a ha
      · intro _
        unfold read_aircraft_flights
        rw [hfind]
  | some a =>
    have haid : a.id = aircraft_id := by simpa using List.find?_some hfind
    have hmem : a ∈ db.aircrafts := List.mem_of_find?_eq_some hfind
    constructor
    · intro fs hok
      unfold read_aircraft_flights at hok
      rw [hfind] at hok
      have hfs : fs = a.relatedFlights db := (Except.ok.inj hok).symm
      subst hfs
      intro f
      unfold Aircraft.relatedFlights
      rw [List.mem_filter]
      constructor
      · rintro ⟨hf1, hf2⟩
        refine ⟨hf1, ?_⟩
        have : f.aircraft_id = a.id := by simpa using hf2
        rw [this, haid]
      · rintro ⟨hf1, hf2⟩
        exact ⟨hf1, by simp [hf2, haid]⟩
    · constructor
      · intro herr
        unfold read_aircraft_flights at herr
        rw [hfind] at herr
        exact absurd herr (by simp)
      · intro hall
        exact absurd haid (hall a hmem)

/-- Claim C6, witnessed on the store whose one flight belongs to
aircraft 1. -/
theorem read_aircraft_flights_exact_witness :
    flightW ∈ [flightW] ↔ flightW ∈ dbW.flights ∧ flightW.aircraft_id = 1 :=
  (read_aircraft_flights_exact dbW 1).1 [flightW] (by rfl) flightW

/-- Claim C7: the link endpoint answers NotFound exactly when the flight
id or the pilot id matches no existing row, and in that failure case
the store — in particular the association set — is returned
untouched (both existence checks run before any write). -/
theorem link_not_found_iff_missing (db : DB) (req : FlightPilotLinkRequest) :
    ((∃ d, (link_pilot_to_flight db req).1 = Except.error (ApiError.notFound d))
      ↔ ((∀ f ∈ db.flights, f.id ≠ req.flight_id)
          ∨ (∀ p ∈ db.pilots, p.id ≠ req.pilot_id))) ∧
    (∀ d, (link_pilot_to_flight db req).1 = Except.error (ApiError.notFound d)
      → (link_pilot_to_flight db req).2 = db) := by
  cases hf : db.flights.find? (fun f => f.id == req.flight_id) with
  | none =>
    have h1 : ∀ f ∈ db.flights, f.id ≠ req.flight_id := by
      intro f hfm
      simpa using List.find?_eq_none.mp hf f hfm
    constructor
    · constructor
      · intro _
        exact Or.inl h1
      · intro _
        exact ⟨"Flight not found.", by simp [link_pilot_to_flight, hf]⟩
    · intro d _
      simp [link_pilot_to_flight, hf]
  | some fl =>
    have hflid : fl.id = req.flight_id := by simpa using List.find?_some hf
    have hflmem : fl ∈ db.flights := List.mem_of_find?_eq_some hf
    cases hp : db.pilots.find? (fun p => p.id == req.pilot_id) with
    | none =>
      have h2 : ∀ p ∈ db.pilots, p.id ≠ req.pilot_id := by
        intro p hpm
        simpa using List.find?_eq_none.mp hp p hpm
      constructor
      · constructor
        · intro _
          exact Or.inr h2
        · intro _
          exact ⟨"Pilot not found.", by simp [link_pilot_to_flight, hf, hp]⟩
      · intro d _
        simp [link_pilot_to_flight, hf, hp]
    | some pl =>
      have hplid : pl.id = req.pilot_id := by simpa using List.find?_some hp
      have hplmem : pl ∈ db.pilots := List.mem_of_find?_eq_some hp
      constructor
      · constructor
        · rintro ⟨d, hd⟩
          simp [link_pilot_to_flight, hf, hp] at hd
        · rintro (h1 | h2)
          · exact absurd hflid (h1 fl hflmem)
          · exact absurd hplid (h2 pl hplmem)
      · intro d hd
        simp [link_pilot_to_flight, hf, hp] at hd

/-- Claim C7, witnessed by a link request naming a missing pilot id on
the sample store: the store comes back unchanged. -/
theorem link_not_found_iff_missing_witness :
    (link_pilot_to_flight dbW linkReqMissingPilot).2 = dbW :=
  (link_not_found_iff_missing dbW linkReqMissingPilot).2 "Pilot not found." (by rfl)

/-- Claim C8 counterexample: POST /pilots with a valid request returns
no body — the handler commits the pilot and implicitly returns None —
so the created entity is not returned. -/
theorem create_pilot_returns_none_counterexample :
    (create_pilot emptyDB pilotRequestW).1 = none :=
  rfl

/-- Claim C8 amended: every Create Pilot persists a new Pilot carrying
the freshly assigned id and the supplied fields, but the response body
is None (201 with no content) rather than the created entity. -/
theorem create_pilot_persists_and_returns_none (db : DB) (req : PilotRequest) :
    (create_pilot db req).1 = none ∧
    (create_pilot db req).2.pilots
      = db.pilots ++
        [{ id := nextId (db.pilots.map (fun x => x.id))
           first_name := req.first_name
           last_name := req.last_name
           date_of_birth := req.date_of_birth }] :=
  ⟨rfl, rfl⟩

/-- Claim C9: a successful delete removes only rows of the targeted
table carrying the targeted id (with unique primary keys, the one
row): deleting an Aircraft keeps every Flight row — even those whose
aircraft_id references it — and every pilot and association row;
deleting a Flight or a Pilot keeps every association pair, even the
pairs naming the deleted id; nothing cascades. -/
theorem delete_frame_no_cascade
    (dba dbf dbp : DB) (i : Nat) (dba2 dbf2 dbp2 : DB)
    (ha : delete_aircraft dba i = (Except.ok (), dba2))
    (hf : delete_flight dbf i = (Except.ok (), dbf2))
    (hp : delete_pilot dbp i = (Except.ok (), dbp2)) :
    (∀ a, a ∈ dba2.aircrafts ↔ a ∈ dba.aircrafts ∧ a.id ≠ i) ∧
    dba2.flights = dba.flights ∧
    dba2.pilots = dba.pilots ∧
    dba2.flight_pilot_association = dba.flight_pilot_association ∧
    (∀ f, f ∈ dbf2.flights ↔ f ∈ dbf.flights ∧ f.id ≠ i) ∧
    dbf2.aircrafts = dbf.aircrafts ∧
    dbf2.pilots = dbf.pilots ∧
    dbf2.flight_pilot_association = dbf.flight_pilot_association ∧
    (∀ p, p ∈ dbp2.pilots ↔ p ∈ dbp.pilots ∧ p.id ≠ i) ∧
    dbp2.aircrafts = dbp.aircrafts ∧
    dbp2.flights = dbp.flights ∧
    dbp2.flight_pilot_association = dbp.flight_pilot_association := by
  have ha2 := delete_aircraft_ok_state dba dba2 i ha
  have hf2 := delete_flight_ok_state dbf dbf2 i hf
  have hp2 := delete_pilot_ok_state dbp dbp2 i hp
  subst ha2; subst hf2; subst hp2
  refine ⟨?_, rfl, rfl, rfl, ?_, rfl, rfl, rfl, ?_, rfl, rfl, rfl⟩
  · intro a
    simp [List.mem_filter]
  · intro f
    simp [List.mem_filter]
  · intro p
    simp [List.mem_filter]

/-- Claim C9, witnessed on the sample store by deleting id 1 from each
table: the aircraft row is gone while the flight table survives an
aircraft delete. -/
theorem delete_frame_no_cascade_witness :
    (aircraftW ∈ (delete_aircraft dbW 1).2.aircrafts
      ↔ aircraftW ∈ dbW.aircrafts ∧ aircraftW.id ≠ 1) ∧
    (delete_aircraft dbW 1).2.flights = dbW.flights := by
  have h := delete_frame_no_cascade dbW dbW dbW 1
    (delete_aircraft dbW 1).2 (delete_flight dbW 1).2 (delete_pilot dbW 1).2
    (by rfl) (by rfl) (by rfl)
  exact ⟨h.1 aircraftW, h.2.1⟩

/-- Claim C10: when both ids resolve, the link succeeds, appends exactly
one (flight_id, pilot_id) pair to the association set, and leaves every
Aircraft, Flight, and Pilot row unchanged. -/
theorem link_success_appends_one_pair (db : DB) (req : FlightPilotLinkRequest)
    (f : Flight) (p : Pilot)
    (hf : db.flights.find? (fun x => x.id == req.flight_id) = some f)
    (hp : db.pilots.find? (fun x => x.id == req.pilot_id) = some p) :
    (link_pilot_to_flight db req).1 = Except.ok "Pilot linked to flight successfully" ∧
    (link_pilot_to_flight db req).2.flight_pilot_association
      = db.flight_pilot_association ++ [(req.flight_id, req.pilot_id)] ∧
    (link_pilot_to_flight db req).2.aircrafts = db.aircrafts ∧
    (link_pilot_to_flight db req).2.flights = db.flights ∧
    (link_pilot_to_flight db req).2.pilots = db.pilots := by
  have hfid : f.id = req.flight_id := by simpa using List.find?_some hf
  have hpid : p.id = req.pilot_id := by simpa using List.find?_some hp
  simp [link_pilot_to_flight, hf, hp, hfid, hpid]

/-- Claim C10, witnessed by linking pilot 1 to flight 1 on the sample
store. -/
theorem link_success_appends_one_pair_witness :
    (link_pilot_to_flight dbW linkReqW).1 = Except.ok "Pilot linked to flight successfully" ∧
    (link_pilot_to_flight dbW linkReqW).2.flight_pilot_association
      = dbW.flight_pilot_association ++ [(linkReqW.flight_id, linkReqW.pilot_id)] ∧
    (link_pilot_to_flight dbW linkReqW).2.aircrafts = dbW.aircrafts ∧
    (link_pilot_to_flight dbW linkReqW).2.flights = dbW.flights ∧
    (link_pilot_to_flight dbW linkReqW).2.pilots = dbW.pilots :=
  link_success_appends_one_pair dbW linkReqW flightW pilotW (by rfl) (by rfl)
